import Mathlib

/-!
Verification of the solar yield and financial projection engine of
`saviottt/solarcalc` (`src/app.py`), as a shallow embedding in Lean 4.

Monetary and energy quantities are embedded as exact rationals (`ℚ`); the
trigonometric physics corrections are embedded over the reals (`ℝ`).
Python's machine floats are modelled by exact arithmetic: none of the
properties verified here depends on rounding of the binary representation.
The regression model `model.predict` is opaque in the source and is
modelled as an arbitrary per-month irradiance function `ghi : ℕ → ℝ`; the
NASA climate payload is modelled as nested optional lookup tables so that
Python `KeyError`s and the `except` clause of the fetch are explicit.
-/

namespace SolarCalc

/-! ## Constants (src/app.py lines 30-46) -/

def COST_PER_KW : ℚ := 60000
def DEGRADATION_RATE : ℚ := 0.005
def YEARS_PROJECTION : ℕ := 25
def EXPORT_TARIFF : ℚ := 3.15

/-- `MONTH_MAP` (lines 36-40): month number to NASA three-letter key. -/
def MONTH_MAP : ℕ → String
  | 1 => "JAN" | 2 => "FEB" | 3 => "MAR" | 4 => "APR"
  | 5 => "MAY" | 6 => "JUN" | 7 => "JUL" | 8 => "AUG"
  | 9 => "SEP" | 10 => "OCT" | 11 => "NOV" | 12 => "DEC"
  | _ => ""

/-- `DAYS_IN_MONTH` (lines 42-46): exact Gregorian month lengths, February 28. -/
def DAYS_IN_MONTH : ℕ → ℕ
  | 1 => 31 | 2 => 28 | 3 => 31 | 4 => 30
  | 5 => 31 | 6 => 30 | 7 => 31 | 8 => 31
  | 9 => 30 | 10 => 31 | 11 => 30 | 12 => 31
  | _ => 0

/-! ## KSEB slab billing (lines 64-83)

The Python loop walks a list of `(slab_units, rate)` pairs, breaking when
`remaining <= 0`; the final band has capacity `float("inf")`, embedded as
`none`.  `billWalk` is the loop as a recursion: `used = min(remaining,
slab_units)` (which is `remaining` itself against the unbounded band),
`cost += used * rate`, `remaining -= used`. -/

def slabUsed (cap : Option ℚ) (remaining : ℚ) : ℚ :=
  match cap with
  | none => remaining
  | some c => min remaining c

def billWalk : List (Option ℚ × ℚ) → ℚ → ℚ
  | [], _ => 0
  | (cap, rate) :: rest, remaining =>
      if remaining ≤ 0 then 0
      else slabUsed cap remaining * rate
            + billWalk rest (remaining - slabUsed cap remaining)

/-- The fixed KSEB domestic slab schedule (lines 65-71). -/
def ksebSlabs : List (Option ℚ × ℚ) :=
  [(some 50, 3.15), (some 50, 3.70), (some 100, 4.80),
   (some 100, 6.40), (none, 7.50)]

def calculate_kseb_domestic_bill (units : ℚ) : ℚ :=
  billWalk ksebSlabs units

/-- Modelled from the spec: the charge collected by one bounded slab of
capacity `cap` and price `rate` whose band starts after `lower` cumulative
units, for a total consumption `u` — the "per-slab charge" whose sum the
spec says the walk computes. -/
def specSlabCharge (lower cap rate u : ℚ) : ℚ :=
  rate * min cap (max 0 (u - lower))

/-- Modelled from the spec: the exact sum of per-slab charges of the five
KSEB bands (the last band is unbounded). -/
def specBillSum (u : ℚ) : ℚ :=
  specSlabCharge 0 50 3.15 u + specSlabCharge 50 50 3.70 u
    + specSlabCharge 100 100 4.80 u + specSlabCharge 200 100 6.40 u
    + 7.50 * max 0 (u - 300)

/-! ## Consumption (lines 197-204)

The EV guard on line 199 is Python truthiness:
`if data.EV_Daily_KM and data.EV_Efficiency and data.EV_Efficiency > 0`.
A float is truthy iff it is nonzero; `None` is falsy.  Both fields are
`Optional[float] = 0`, so a JSON `null` arrives as `none`. -/

def pyTruthy : Option ℚ → Bool
  | none => false
  | some x => decide (x ≠ 0)

def ev_yearly_energy (ev_daily_km ev_efficiency : Option ℚ) : ℚ :=
  if pyTruthy ev_daily_km && pyTruthy ev_efficiency
      && decide (0 < ev_efficiency.getD 0)
  then (ev_daily_km.getD 0 / ev_efficiency.getD 0) * 365
  else 0

/-! ## Request schema (lines 51-59)

`SolarInput` is a pydantic `BaseModel` whose fields carry bare type
annotations and defaults — no `Field` constraints, no validators.  Pydantic
therefore only checks that the four required numeric fields are present
(and numeric); it imposes no range restriction.  `RawSolarInput` is the
incoming request: `none` marks a missing required field. -/

structure RawSolarInput where
  Latitude : Option ℚ
  Longitude : Option ℚ
  System_Size : Option ℚ
  Monthly_Consumption : Option ℚ
  EV_Daily_KM : Option ℚ
  EV_Efficiency : Option ℚ
  Tilt : Option ℚ
  NOCT : Option ℚ

structure SolarInput where
  Latitude : ℚ
  Longitude : ℚ
  System_Size : ℚ
  Monthly_Consumption : ℚ
  EV_Daily_KM : Option ℚ
  EV_Efficiency : Option ℚ
  Tilt : Option ℚ
  NOCT : Option ℚ
deriving DecidableEq

def validateSolarInput (raw : RawSolarInput) : Except String SolarInput :=
  match raw.Latitude, raw.Longitude, raw.System_Size, raw.Monthly_Consumption with
  | some la, some lo, some s, some c =>
      .ok ⟨la, lo, s, c, raw.EV_Daily_KM, raw.EV_Efficiency, raw.Tilt, raw.NOCT⟩
  | _, _, _, _ => .error "ValidationError"

/-- `total_yearly_usage` (line 204): household plus EV yearly demand. -/
def total_yearly_usage (inp : SolarInput) : ℚ :=
  inp.Monthly_Consumption * 12
    + ev_yearly_energy inp.EV_Daily_KM inp.EV_Efficiency

/-! ## Financials (lines 206-256) -/

/-- `annual_net_benefit` (lines 206-220), as a function of the simulated
yearly energy and the total yearly usage. -/
def annual_net_benefit (yearly_energy total_yearly_usage : ℚ) : ℚ :=
  let surplus_energy := yearly_energy - total_yearly_usage
  let grid_import_units := max 0 (total_yearly_usage - yearly_energy)
  let yearly_bill_without_solar := calculate_kseb_domestic_bill total_yearly_usage
  let yearly_bill_with_solar := calculate_kseb_domestic_bill grid_import_units
  let export_income := max 0 surplus_energy * EXPORT_TARIFF
  yearly_bill_without_solar - yearly_bill_with_solar + export_income

/-- `calculate_pm_surya_ghar_subsidy` (lines 129-135). -/
def calculate_pm_surya_ghar_subsidy (system_size_kw : ℚ) : ℚ :=
  if system_size_kw ≤ 2 then system_size_kw * 30000
  else if system_size_kw ≤ 3 then 60000 + (system_size_kw - 2) * 18000
  else 78000

def gross_cost (system_size : ℚ) : ℚ := system_size * COST_PER_KW

def net_cost (system_size : ℚ) : ℚ :=
  gross_cost system_size - calculate_pm_surya_ghar_subsidy system_size

/-- `payback_years` (lines 229-232): `None` when the benefit is not
positive. -/
def payback_years (net_cost annual_net_benefit : ℚ) : Option ℚ :=
  if 0 < annual_net_benefit then some (net_cost / annual_net_benefit) else none

/-- Python `round(q, 2)`: round half to even at two decimals. -/
def pythonRound2 (q : ℚ) : ℚ :=
  let s := q * 100
  let f : ℤ := ⌊s⌋
  let r := s - f
  let n : ℤ :=
    if r < 1/2 then f
    else if 1/2 < r then f + 1
    else if Even f then f else f + 1
  (n : ℚ) / 100

/-- The response field `Payback_Years` (line 275):
`round(payback_years, 2) if payback_years else None`.  Python truthiness
makes both `None` and `0.0` take the `else` branch. -/
def reported_payback (pb : Option ℚ) : Option ℚ :=
  match pb with
  | some p => if p = 0 then none else some (pythonRound2 p)
  | none => none

/-- Body of the 25-year projection loop (lines 244-254); the reference
bill is the frozen first-year `yearly_bill_without_solar` of line 212,
i.e. the slab bill of the (undegraded) total yearly usage. -/
def projection_yearly_savings (yearly_energy total_yearly_usage : ℚ) (year : ℕ) : ℚ :=
  let degraded_energy := yearly_energy * (1 - DEGRADATION_RATE) ^ year
  let degraded_import := max 0 (total_yearly_usage - degraded_energy)
  let bill_with_solar := calculate_kseb_domestic_bill degraded_import
  let yearly_savings :=
    calculate_kseb_domestic_bill total_yearly_usage - bill_with_solar
  let degraded_surplus := max 0 (degraded_energy - total_yearly_usage)
  yearly_savings + degraded_surplus * EXPORT_TARIFF

/-- `total_savings_25` (lines 242-254): the accumulation loop over
`range(YEARS_PROJECTION)`. -/
def total_savings_25 (yearly_energy total_yearly_usage : ℚ) : ℚ :=
  (List.range YEARS_PROJECTION).foldl
    (fun acc year =>
      acc + projection_yearly_savings yearly_energy total_yearly_usage year) 0

/-- `net_profit_25` (line 256). -/
def net_profit_25 (yearly_energy total_yearly_usage net_cost : ℚ) : ℚ :=
  total_savings_25 yearly_energy total_yearly_usage - net_cost

/-! ## Solar physics (lines 108-124) and the monthly loop (lines 147-192)

Over `ℝ`, since the tilt correction uses `np.cos`/`np.radians`. -/

noncomputable section Physics

def PR : ℝ := 0.8

/-- `np.radians`. -/
def radiansOf (deg : ℝ) : ℝ := deg * Real.pi / 180

def calculate_optimal_tilt (latitude : ℝ) : ℝ := |0.76 * latitude + 3.1|

def apply_tilt_correction (ghi latitude tilt : ℝ) : ℝ :=
  let latitude_rad := radiansOf latitude
  let tilt_rad := radiansOf tilt
  let tilt_factor := Real.cos (latitude_rad - tilt_rad) / Real.cos latitude_rad
  ghi * max 0.85 (min 1.15 tilt_factor)

def calculate_cell_temperature (ambient_temp irradiance_kwh_m2_day noct : ℝ) : ℝ :=
  let irradiance_w_m2 := irradiance_kwh_m2_day * 1000 / 24
  ambient_temp + ((noct - 20) / 800) * irradiance_w_m2

def temperature_derating_from_cell (cell_temp : ℝ) : ℝ :=
  let effect := 1 + (-0.004 * (cell_temp - 25))
  max 0.75 (min effect 1.05)

/-- One iteration of the monthly simulation loop (lines 150-190), with the
opaque regression model abstracted as a per-month predicted irradiance
`ghi` and the fetched ambient temperature as `temp`. -/
def monthly_energy (system_size latitude tilt_used noct : ℝ)
    (ghi temp : ℕ → ℝ) (month : ℕ) : ℝ :=
  let corrected_irradiance := apply_tilt_correction (ghi month) latitude tilt_used
  let cell_temp := calculate_cell_temperature (temp month) corrected_irradiance noct
  let temp_effect := temperature_derating_from_cell cell_temp
  system_size * corrected_irradiance * (DAYS_IN_MONTH month : ℝ) * PR * temp_effect

/-- The accumulation `yearly_energy += monthly_energy` over
`for month in range(1, 13)` (lines 147-192). -/
def yearly_energy_sim (system_size latitude tilt_used noct : ℝ)
    (ghi temp : ℕ → ℝ) : ℝ :=
  (List.range 12).foldl
    (fun acc i =>
      acc + monthly_energy system_size latitude tilt_used noct ghi temp (i + 1)) 0

end Physics

/-! ## Climate fetch and month lookup (lines 88-103 and 152-163)

`fetch_nasa_climate` wraps the transport call, `raise_for_status` and the
envelope extraction `response.json()["properties"]["parameter"]` in one
`try/except` that turns *any* exception into the single
`HTTPException(500, "Failed to fetch NASA data")`, embedded as
`AppError.fetchFailure`.  A `KeyError` raised later, by
`climate["T2M"][month_key]` inside the monthly loop, is uncaught and
surfaces as a generic server error, embedded as `AppError.keyError`.
`AppError.climateDataMissing` is the error kind the spec postulates; the
code never constructs it. -/

abbrev Normals : Type := String → Option (String → Option ℚ)

structure NasaProperties where
  parameter : Option Normals

structure NasaBody where
  properties : Option NasaProperties

inductive AppError where
  | fetchFailure
  | keyError (key : String)
  | climateDataMissing
deriving DecidableEq

/-- `fetch_nasa_climate` (lines 88-103).  `transport = none` models a
raised transport exception; otherwise the pair is the HTTP status and the
decoded JSON body. -/
def fetch_nasa_climate (transport : Option (ℕ × NasaBody)) : Except AppError Normals :=
  match transport with
  | none => .error .fetchFailure
  | some (status, body) =>
      if 400 ≤ status then .error .fetchFailure
      else
        match body.properties with
        | none => .error .fetchFailure
        | some props =>
            match props.parameter with
            | none => .error .fetchFailure
            | some normals => .ok normals

/-- `climate[key]`: Python dict lookup, `KeyError` when absent. -/
def paramTable (climate : Normals) (key : String) :
    Except AppError (String → Option ℚ) :=
  match climate key with
  | none => .error (.keyError key)
  | some table => .ok table

/-- `table[month_key]`: Python dict lookup, `KeyError` when absent. -/
def monthValue (table : String → Option ℚ) (key : String) : Except AppError ℚ :=
  match table key with
  | none => .error (.keyError key)
  | some v => .ok v

/-- The climate reads of one loop iteration, in source order (lines
152-163): `climate["T2M"][month_key]`, then `climate["RH2M"][month_key]`
and `climate["WS2M"][month_key]`. -/
def getMonthClimate (climate : Normals) (month : ℕ) :
    Except AppError (ℚ × ℚ × ℚ) := do
  let month_key := MONTH_MAP month
  let t2m ← paramTable climate "T2M"
  let temp ← monthValue t2m month_key
  let rh2m ← paramTable climate "RH2M"
  let humidity ← monthValue rh2m month_key
  let ws2m ← paramTable climate "WS2M"
  let wind ← monthValue ws2m month_key
  return (temp, humidity, wind)

/-- A fetched normals table that is complete except that the `"FEB"` key
is missing from the `"T2M"` parameter. -/
def normalsMissingFeb : Normals := fun p =>
  if p = "T2M" then some (fun m => if m = "FEB" then none else some 25)
  else if p = "RH2M" then some (fun _ => some 70)
  else if p = "WS2M" then some (fun _ => some 3)
  else none

/-! ## Helper lemmas -/

lemma billWalk_nonpos (l : List (Option ℚ × ℚ)) {r : ℚ} (h : r ≤ 0) :
    billWalk l r = 0 := by
  cases l with
  | nil => rfl
  | cons p rest => cases p with
    | mk cap rate => simp [billWalk, h]

/-- A bounded band of nonnegative capacity collects `rate * min c (max 0 r)`
and passes the residual `r - c` on (negative residuals bill to nothing). -/
lemma billWalk_cons_some (c rate r : ℚ) (hc : 0 ≤ c) (rest : List (Option ℚ × ℚ)) :
    billWalk ((some c, rate) :: rest) r
      = rate * min c (max 0 r) + billWalk rest (r - c) := by
  rcases le_or_lt r 0 with h | h
  · rw [billWalk_nonpos _ h, billWalk_nonpos rest (by linarith)]
    rw [max_eq_left h, min_eq_right hc]
    ring
  · rw [show billWalk ((some c, rate) :: rest) r
        = if r ≤ 0 then 0 else slabUsed (some c) r * rate
            + billWalk rest (r - slabUsed (some c) r) from rfl]
    rw [if_neg (not_le.mpr h), max_eq_right h.le]
    rcases le_total r c with h1 | h1
    · rw [show slabUsed (some c) r = min r c from rfl, min_eq_left h1,
        min_eq_right h1, sub_self, billWalk_nonpos rest le_rfl,
        billWalk_nonpos rest (by linarith)]
      ring
    · rw [show slabUsed (some c) r = min r c from rfl, min_eq_right h1,
        min_eq_left h1]
      ring_nf

/-- The terminal unbounded band collects `rate * max 0 r`. -/
lemma billWalk_none (rate r : ℚ) :
    billWalk [(none, rate)] r = rate * max 0 r := by
  rcases le_or_lt r 0 with h | h
  · rw [billWalk_nonpos _ h, max_eq_left h]; ring
  · rw [show billWalk [(none, rate)] r
        = if r ≤ 0 then 0 else slabUsed none r * rate
            + billWalk [] (r - slabUsed none r) from rfl]
    rw [if_neg (not_le.mpr h), max_eq_right h.le]
    show r * rate + 0 = rate * r
    ring

/-- The slab walk of the source equals the closed-form sum of per-slab
charges. -/
lemma bill_eq_specBillSum (u : ℚ) :
    calculate_kseb_domestic_bill u = specBillSum u := by
  unfold calculate_kseb_domestic_bill ksebSlabs
  rw [billWalk_cons_some 50 3.15 u (by norm_num),
    billWalk_cons_some 50 3.70 (u - 50) (by norm_num),
    billWalk_cons_some 100 4.80 (u - 50 - 50) (by norm_num),
    billWalk_cons_some 100 6.40 (u - 50 - 50 - 100) (by norm_num),
    billWalk_none]
  unfold specBillSum specSlabCharge
  rw [show u - 50 - 50 = u - 100 by ring, show u - 100 - 100 = u - 200 by ring,
    show u - 200 - 100 = u - 300 by ring, sub_zero]
  ring

lemma bill_mono {u1 u2 : ℚ} (h : u1 ≤ u2) :
    calculate_kseb_domestic_bill u1 ≤ calculate_kseb_domestic_bill u2 := by
  rw [bill_eq_specBillSum, bill_eq_specBillSum]
  unfold specBillSum specSlabCharge
  gcongr

lemma foldl_add_eq_sum {M : Type*} [AddCommMonoid M] (f : ℕ → M) (n : ℕ) :
    (List.range n).foldl (fun acc i => acc + f i) 0 = ∑ i ∈ Finset.range n, f i := by
  induction n with
  | zero => rfl
  | succ n ih =>
      rw [List.range_succ, List.foldl_append, ih, Finset.sum_range_succ]
      rfl

lemma yearly_energy_zero_size (la t n : ℝ) (ghi temp : ℕ → ℝ) :
    yearly_energy_sim 0 la t n ghi temp = 0 := by
  rw [yearly_energy_sim,
    foldl_add_eq_sum (fun i => monthly_energy 0 la t n ghi temp (i + 1)) 12]
  refine Finset.sum_eq_zero fun i _ => ?_
  simp [monthly_energy]

/-! ## Claims -/

/-- Claim C1: the yearly energy accumulated by the monthly loop equals the
exact sum over the 12 calendar months of
`system_size * corrected_irradiance(month) * days_in_month * 0.8 *
derating_factor(month)`, where the month lengths are the exact Gregorian
ones with February 28 and no leap-year adjustment — it is a genuine
12-term sum with per-month day counts, not a single monthly value times
12. -/
theorem yearly_energy_exact_monthly_sum (s la t n : ℝ) (ghi temp : ℕ → ℝ) :
    yearly_energy_sim s la t n ghi temp
      = ∑ i ∈ Finset.range 12,
          s * apply_tilt_correction (ghi (i + 1)) la t
            * (DAYS_IN_MONTH (i + 1) : ℝ) * 0.8
            * temperature_derating_from_cell
                (calculate_cell_temperature (temp (i + 1))
                  (apply_tilt_correction (ghi (i + 1)) la t) n)
    ∧ DAYS_IN_MONTH 2 = 28
    ∧ (List.range 12).map (fun i => DAYS_IN_MONTH (i + 1))
        = [31, 28, 31, 30, 31, 30, 31, 31, 30, 31, 30, 31] := by
  refine ⟨?_, rfl, by decide⟩
  exact foldl_add_eq_sum
    (fun i => s * apply_tilt_correction (ghi (i + 1)) la t
      * (DAYS_IN_MONTH (i + 1) : ℝ) * 0.8
      * temperature_derating_from_cell
          (calculate_cell_temperature (temp (i + 1))
            (apply_tilt_correction (ghi (i + 1)) la t) n)) 12

/-- Claim C2: the 25-year projection sums, over projection years
`y = 0..24`, the savings `bill(usage) − bill(max 0 (usage − E·(1−0.005)^y))
+ max 0 (E·(1−0.005)^y − usage) · 3.15`, where `bill(usage)` is the frozen
first-year bill without solar, and the 25-year net profit is that total
minus the net system cost. -/
theorem projection_25yr_frozen_baseline (e u s : ℚ) :
    total_savings_25 e u
      = ∑ y ∈ Finset.range 25,
          (calculate_kseb_domestic_bill u
            - calculate_kseb_domestic_bill (max 0 (u - e * (1 - 0.005 : ℚ) ^ y))
            + max 0 (e * (1 - 0.005 : ℚ) ^ y - u) * 3.15)
    ∧ net_profit_25 e u (net_cost s) = total_savings_25 e u - net_cost s := by
  constructor
  · rw [total_savings_25, YEARS_PROJECTION, foldl_add_eq_sum]
    refine Finset.sum_congr rfl fun y _ => ?_
    unfold projection_yearly_savings DEGRADATION_RATE EXPORT_TARIFF
    ring
  · rfl

/-- Claim C3: `calculate_kseb_domestic_bill` equals the exact sum of
per-slab charges of the ordered KSEB band list; the bill of 0 units is 0,
and negative consumption bills to 0 (no negative billing). -/
theorem kseb_bill_slab_walk (u : ℚ) :
    calculate_kseb_domestic_bill u = specBillSum u
    ∧ calculate_kseb_domestic_bill 0 = 0
    ∧ (u < 0 → calculate_kseb_domestic_bill u = 0) :=
  ⟨bill_eq_specBillSum u, billWalk_nonpos _ le_rfl,
    fun h => billWalk_nonpos _ h.le⟩

theorem kseb_bill_slab_walk_witness :
    (-5 : ℚ) < 0 ∧ calculate_kseb_domestic_bill (-5) = 0 :=
  ⟨by norm_num, (kseb_bill_slab_walk (-5)).2.2 (by norm_num)⟩

/-- Claim C4 (code bug): with `System_Size = 0` and
`Monthly_Consumption = -100` (both accepted, since the request model
validates no ranges) the yearly energy is 0 for every climate and
predictor, the total usage is −1200, the annual net benefit is 3780 > 0
and the net cost is 0, so the computed payback is exactly 0 — yet the
response (line 275: `round(payback_years, 2) if payback_years else None`)
reports it as absent, because `0.0` is falsy in Python, contradicting the
claim that the payback is numeric whenever the benefit is positive. -/
theorem payback_zero_reported_none :
    total_yearly_usage ⟨10, 76, 0, -100, some 0, some 0, none, some 45⟩ = -1200
    ∧ yearly_energy_sim 0 10 11 45 (fun _ => 5) (fun _ => 27) = 0
    ∧ annual_net_benefit 0 (-1200) = 3780
    ∧ 0 < annual_net_benefit 0 (-1200)
    ∧ net_cost 0 = 0
    ∧ payback_years (net_cost 0) (annual_net_benefit 0 (-1200)) = some 0
    ∧ reported_payback
        (payback_years (net_cost 0) (annual_net_benefit 0 (-1200))) = none := by
  have hb : annual_net_benefit 0 (-1200) = 3780 := by
    norm_num [annual_net_benefit, calculate_kseb_domestic_bill, ksebSlabs,
      billWalk, slabUsed, EXPORT_TARIFF]
  have hc : net_cost 0 = 0 := by
    norm_num [net_cost, gross_cost, calculate_pm_surya_ghar_subsidy, COST_PER_KW]
  refine ⟨?_, yearly_energy_zero_size 10 11 45 (fun _ => 5) (fun _ => 27),
    hb, by rw [hb]; norm_num, hc, ?_, ?_⟩
  · norm_num [total_yearly_usage, ev_yearly_energy, pyTruthy]
  · rw [hb, hc]; norm_num [payback_years]
  · rw [hb, hc]; norm_num [payback_years, reported_payback]

/-- Claim C5 counterexample: with normals whose `"T2M"` table lacks the
`"FEB"` key, the month lookup of month 2 fails with an uncaught `KeyError`
— not with a `ClimateDataMissing` error — and a success-status response
whose body lacks the `"parameter"` envelope is reported as the transport
fetch failure, conflating a data-shape problem with a transport one. -/
theorem climate_missing_month_counterexample :
    getMonthClimate normalsMissingFeb 2 = .error (.keyError "FEB")
    ∧ (Except.error (AppError.keyError "FEB") : Except AppError (ℚ × ℚ × ℚ))
        ≠ .error .climateDataMissing
    ∧ fetch_nasa_climate (some (200, ⟨some ⟨none⟩⟩)) = .error .fetchFailure :=
  ⟨rfl, by simp, rfl⟩

/-- Claim C5 as amended: a month key absent from the fetched `"T2M"` table
makes the monthly lookup fail with an uncaught `KeyError` naming that
month key (a generic server error, never a dedicated `ClimateDataMissing`
kind), while a fetched body missing the `"parameter"` envelope is caught
inside the fetch's `try/except` and reported as the fetch failure. -/
theorem climate_missing_month_behaviour (climate : Normals) (m : ℕ)
    (t : String → Option ℚ) (st : ℕ) (body : NasaBody)
    (h1 : climate "T2M" = some t) (h2 : t (MONTH_MAP m) = none)
    (h3 : body.properties = some ⟨none⟩) :
    getMonthClimate climate m = .error (.keyError (MONTH_MAP m))
    ∧ fetch_nasa_climate (some (st, body)) = .error .fetchFailure
    ∧ getMonthClimate climate m ≠ .error .climateDataMissing
    ∧ fetch_nasa_climate (some (st, body)) ≠ .error .climateDataMissing := by
  have hg : getMonthClimate climate m = .error (.keyError (MONTH_MAP m)) := by
    simp [getMonthClimate, paramTable, monthValue, h1, h2, Except.instMonad,
      Bind.bind, Except.bind]
  have hf : fetch_nasa_climate (some (st, body)) = .error .fetchFailure := by
    simp [fetch_nasa_climate, h3]
  exact ⟨hg, hf, by rw [hg]; simp, by rw [hf]; simp⟩

theorem climate_missing_month_behaviour_witness :
    normalsMissingFeb "T2M" = some (fun m => if m = "FEB" then none else some 25)
    ∧ (fun m : String => if m = "FEB" then none else some (25 : ℚ)) (MONTH_MAP 2) = none
    ∧ (NasaBody.mk (some ⟨none⟩)).properties = some ⟨none⟩
    ∧ (getMonthClimate normalsMissingFeb 2 = .error (.keyError (MONTH_MAP 2))
        ∧ fetch_nasa_climate (some (200, ⟨some ⟨none⟩⟩)) = .error .fetchFailure
        ∧ getMonthClimate normalsMissingFeb 2 ≠ .error .climateDataMissing
        ∧ fetch_nasa_climate (some (200, ⟨some ⟨none⟩⟩))
            ≠ .error .climateDataMissing) :=
  ⟨rfl, rfl, rfl,
    climate_missing_month_behaviour normalsMissingFeb 2
      (fun m => if m = "FEB" then none else some 25) 200 ⟨some ⟨none⟩⟩
      rfl rfl rfl⟩

/-- Claim C6 counterexample: a request with latitude 200 (outside
[−90, 90]), longitude 500 (outside [−180, 180]) and system size −1 (not
positive) passes the pydantic validation of `SolarInput` — which checks
only presence and type — and the estimation computation proceeds on it
(here its consumption stage yields a value), refuting the claim that such
a request is rejected with a `ValidationError` before computation
starts. -/
theorem out_of_range_input_accepted :
    validateSolarInput
        ⟨some 200, some 500, some (-1), some 100, some 0, some 0, none, some 45⟩
      = .ok ⟨200, 500, -1, 100, some 0, some 0, none, some 45⟩
    ∧ ¬ ((-90 : ℚ) ≤ 200 ∧ (200 : ℚ) ≤ 90)
    ∧ ¬ ((0 : ℚ) < -1)
    ∧ total_yearly_usage ⟨200, 500, -1, 100, some 0, some 0, none, some 45⟩ = 1200 := by
  refine ⟨rfl, by norm_num, by norm_num, ?_⟩
  norm_num [total_yearly_usage, ev_yearly_energy, pyTruthy]

/-- Claim C6 as amended: the request model performs presence/type
validation only — any numeric values for latitude, longitude, system size
and consumption are accepted regardless of range, and a request is
rejected with a `ValidationError` only when a required field is missing. -/
theorem validation_checks_presence_only (la lo s c : ℚ) (ev1 ev2 t n : Option ℚ) :
    validateSolarInput ⟨some la, some lo, some s, some c, ev1, ev2, t, n⟩
      = .ok ⟨la, lo, s, c, ev1, ev2, t, n⟩
    ∧ validateSolarInput ⟨none, some lo, some s, some c, ev1, ev2, t, n⟩
      = .error "ValidationError" :=
  ⟨rfl, rfl⟩

/-- Claim C7: when a daily distance and a strictly positive efficiency are
supplied, the yearly EV energy is `(daily_km / efficiency) * 365`; a
supplied efficiency of exactly 0, or an absent one, yields exactly 0 EV
energy (the guard short-circuits before any division, so no
division-by-zero is possible). -/
theorem ev_energy_zero_efficiency_safe (km eff : ℚ) (kmo : Option ℚ)
    (h : 0 < eff) :
    ev_yearly_energy (some km) (some eff) = km / eff * 365
    ∧ ev_yearly_energy kmo (some 0) = 0
    ∧ ev_yearly_energy kmo none = 0 := by
  refine ⟨?_, ?_, ?_⟩
  · by_cases hk : km = 0
    · simp [ev_yearly_energy, pyTruthy, hk]
    · simp [ev_yearly_energy, pyTruthy, hk, h, h.ne']
  · simp [ev_yearly_energy, pyTruthy]
  · simp [ev_yearly_energy, pyTruthy]

theorem ev_energy_zero_efficiency_safe_witness :
    (0 : ℚ) < 5
    ∧ (ev_yearly_energy (some 50) (some 5) = 50 / 5 * 365
        ∧ ev_yearly_energy (some 30) (some 0) = 0
        ∧ ev_yearly_energy (some 30) none = 0) :=
  ⟨by norm_num, ev_energy_zero_efficiency_safe 50 5 (some 30) (by norm_num)⟩

/-- Claim C8: `apply_tilt_correction` returns the GHI multiplied by the
factor `cos(lat_rad − tilt_rad) / cos(lat_rad)` clamped to [0.85, 1.15],
and the applied factor always lies within [0.85, 1.15] for every latitude
and tilt. -/
theorem tilt_correction_factor_clamped (ghi latitude tilt : ℝ) :
    apply_tilt_correction ghi latitude tilt
      = ghi * max 0.85 (min 1.15
          (Real.cos (radiansOf latitude - radiansOf tilt)
            / Real.cos (radiansOf latitude)))
    ∧ 0.85 ≤ max 0.85 (min 1.15
          (Real.cos (radiansOf latitude - radiansOf tilt)
            / Real.cos (radiansOf latitude)))
    ∧ max 0.85 (min 1.15
          (Real.cos (radiansOf latitude - radiansOf tilt)
            / Real.cos (radiansOf latitude))) ≤ 1.15 :=
  ⟨rfl, le_max_left _ _, max_le (by norm_num) (min_le_left _ _)⟩

/-- Claim C9: the KSEB slab bill is monotonically non-decreasing: for
`0 ≤ u1 ≤ u2`, `bill(u1) ≤ bill(u2)` (the fixed slab rates are all
non-negative). -/
theorem kseb_bill_monotone (u1 u2 : ℚ) (_h0 : 0 ≤ u1) (h12 : u1 ≤ u2) :
    calculate_kseb_domestic_bill u1 ≤ calculate_kseb_domestic_bill u2 :=
  bill_mono h12

theorem kseb_bill_monotone_witness :
    (0 : ℚ) ≤ 10 ∧ (10 : ℚ) ≤ 20
    ∧ calculate_kseb_domestic_bill 10 ≤ calculate_kseb_domestic_bill 20 :=
  ⟨by norm_num, by norm_num, kseb_bill_monotone 10 20 (by norm_num) (by norm_num)⟩

/-- Claim C10: when the simulated yearly energy and the total yearly usage
are non-negative, the grid import `max 0 (usage − yield)` never exceeds
the usage, the bill with solar never exceeds the bill without, and the
annual net benefit is non-negative. -/
theorem annual_net_benefit_nonneg (e u : ℚ) (he : 0 ≤ e) (hu : 0 ≤ u) :
    max 0 (u - e) ≤ u
    ∧ calculate_kseb_domestic_bill (max 0 (u - e)) ≤ calculate_kseb_domestic_bill u
    ∧ 0 ≤ annual_net_benefit e u := by
  have himp : max 0 (u - e) ≤ u := max_le hu (by linarith)
  have hmono := bill_mono himp
  refine ⟨himp, hmono, ?_⟩
  unfold annual_net_benefit
  have hexp : 0 ≤ max 0 (e - u) * EXPORT_TARIFF :=
    mul_nonneg (le_max_left 0 _) (by norm_num [EXPORT_TARIFF])
  dsimp only
  linarith

theorem annual_net_benefit_nonneg_witness :
    (0 : ℚ) ≤ 100 ∧ (0 : ℚ) ≤ 200
    ∧ (max 0 ((200 : ℚ) - 100) ≤ 200
        ∧ calculate_kseb_domestic_bill (max 0 ((200 : ℚ) - 100))
            ≤ calculate_kseb_domestic_bill 200
        ∧ 0 ≤ annual_net_benefit 100 200) :=
  ⟨by norm_num, by norm_num,
    annual_net_benefit_nonneg 100 200 (by norm_num) (by norm_num)⟩

end SolarCalc
